import Mathlib

/-
Verification development for the darts excerpt:
  * src/darts/ad/scorers/difference_scorer.py   (DifferenceScorer)
  * src/darts/models/forecasting/croston.py     (Croston.__init__)
  * src/darts/explainability/shap_explainer.py  (ShapExplainer and
    _RegressionShapExplainers: lag-matrix construction and attribution
    reassembly)

Python floats are modelled by ℚ, pandas/NumPy missing values (NaN after a
shift) by Option ℚ, raised exceptions by Except/inductive outcomes, and
Python dicts keyed by consecutive integers by association lists built from
List.range (which records the exact key set and insertion order).
-/

namespace Darts

/-- Model of Python str.lower(): lower-case every character.  (Identical to
Python's behaviour on the ASCII strings relevant here.) -/
def pyLower (s : String) : String := String.mk (s.data.map Char.toLower)

/-- Model of Python str.upper(): upper-case every character. -/
def pyUpper (s : String) : String := String.mk (s.data.map Char.toUpper)

/-- Model of Python max() over a list of naturals: none on the empty list
(Python raises ValueError there), otherwise the maximum. -/
def pyMax : List Nat → Option Nat
  | [] => none
  | x :: xs => some (xs.foldl max x)

/-! ## Croston constructor (croston.py, lines 52-73) -/

/-- The statsforecast model selected by Croston.__init__. -/
inductive CrostonModel : Type
  | classic : CrostonModel
  | optimized : CrostonModel
  | sba : CrostonModel
  | tsb (alpha_d alpha_p : ℚ) : CrostonModel
deriving DecidableEq

/-- Accepted lower-cased version names (croston.py line 54). -/
def crostonAcceptedVersions : List String := ["classic", "optimized", "sba", "tsb"]

/-- Croston.__init__ (croston.py lines 52-73): validates version.lower()
against the accepted list, then dispatches on the exact string; the final
else-branch (TSB) additionally requires both alpha_d and alpha_p. -/
def crostonInit (version : String) (alpha_d alpha_p : Option ℚ) :
    Except String CrostonModel :=
  if ¬ (pyLower version ∈ crostonAcceptedVersions) then
    Except.error "The provided \"version\" parameter must be set to \"classic\", \"optimized\", \"sba\" or \"tsb\"."
  else if version = "classic" then Except.ok CrostonModel.classic
  else if version = "optimized" then Except.ok CrostonModel.optimized
  else if version = "sba" then Except.ok CrostonModel.sba
  else
    match alpha_d, alpha_p with
    | some d, some p => Except.ok (CrostonModel.tsb d p)
    | _, _ => Except.error "alpha_d and alpha_p must be specified when using \"tsb\"."

/-! ## Difference scorer (difference_scorer.py, lines 21-28)

The TimeSeries class itself (darts/timeseries.py) and the scorer base
class's _assert_deterministic (darts/ad/scorers/scorers.py) are not part of
the excerpt, so they are modelled from the spec. -/

/-- Modelled from the spec (darts/timeseries.py is not in the excerpt): a
time series is an ordered sequence of timestamped vector observations, with
one or more named scalar components per timestamp and a number of stochastic
samples per value. -/
structure TimeSeries : Type where
  times : List ℤ
  components : List String
  nSamples : ℕ
  values : ℕ → ℕ → ℕ → ℚ

/-- Modelled from the spec (darts/ad/scorers/scorers.py _assert_deterministic
is not in the excerpt): a series is deterministic when it is single-valued,
i.e. carries exactly one sample, rather than distributional. -/
def isDeterministic (s : TimeSeries) : Bool := s.nSamples == 1

/-- Modelled from the spec (TimeSeries.__sub__ is not in the excerpt):
elementwise subtraction between series sharing an identical time index and
component structure, preserving the time index and the component names. -/
def tsSub (a b : TimeSeries) : TimeSeries :=
  { times := a.times
    components := a.components
    nSamples := a.nSamples
    values := fun t c s => a.values t c s - b.values t c s }

/-- DifferenceScorer._score_core_from_prediction (difference_scorer.py lines
21-28): assert both inputs deterministic, then return their difference. -/
def scoreCoreFromPrediction (actual_series pred_series : TimeSeries) :
    Except String TimeSeries :=
  if ¬ (isDeterministic actual_series = true) then
    Except.error "actual_series must be deterministic"
  else if ¬ (isDeterministic pred_series = true) then
    Except.error "pred_series must be deterministic"
  else
    Except.ok (tsSub actual_series pred_series)

/-! ## ShapExplainer configuration validation (shap_explainer.py) -/

/-- Member names of the _ShapMethod enum (shap_explainer.py lines 41-50);
ShapExplainer.__init__ accepts a shap_method exactly when its upper-cased
form is one of these. -/
def shapMethodMembers : List String :=
  ["TREE", "GRADIENT", "DEEP", "KERNEL", "SAMPLING", "PARTITION", "LINEAR",
   "PERMUTATION", "ADDITIVE"]

/-- The shap_method validation of ShapExplainer.__init__ (shap_explainer.py
lines 130-142): None is passed through, otherwise the name is upper-cased
and must be a _ShapMethod member, else a ValueError is raised. -/
def shapExplainerInitMethod (shap_method : Option String) :
    Except String (Option String) :=
  match shap_method with
  | none => Except.ok none
  | some s =>
    if pyUpper s ∈ shapMethodMembers then Except.ok (some (pyUpper s))
    else
      Except.error "Invalid shap method. Please choose one value among the following: [partition, tree, kernel, sampling, linear, deep, gradient]."

/-- Outcome of the argument validation at the top of
ShapExplainer.summary_plot: either one of the raise_if checks fires (or
Python max() fails on an empty horizons list) before any attribution is
computed, or control reaches the shap_explanations call. -/
inductive SummaryPlotOutcome : Type
  | rejected (msg : String) : SummaryPlotOutcome
  | computesAttribution : SummaryPlotOutcome
deriving DecidableEq

/-- The horizons check of ShapExplainer.summary_plot (shap_explainer.py
lines 246-251): raise_if(max(horizons) > self.n - 1, ...). -/
def summaryPlotHorizonCheck (n : ℕ) (horizons : Option (List ℕ)) :
    SummaryPlotOutcome :=
  match horizons with
  | none => SummaryPlotOutcome.computesAttribution
  | some hs =>
    match pyMax hs with
    | none => SummaryPlotOutcome.rejected "max() arg is an empty sequence"
    | some m =>
      if n - 1 < m then
        SummaryPlotOutcome.rejected "One of the horizons is greater than the model output_chunk_length."
      else SummaryPlotOutcome.computesAttribution

/-- The validation prefix of ShapExplainer.summary_plot (shap_explainer.py
lines 235-251): first the target-name check, then the horizons check; only
when both pass does control reach the attribution computation (the
shap_explanations call at lines 266-271). -/
def summaryPlotCheck (selfTargetNames : List String) (n : ℕ)
    (target_names : Option (List String)) (horizons : Option (List ℕ)) :
    SummaryPlotOutcome :=
  match target_names with
  | none => summaryPlotHorizonCheck n horizons
  | some ts =>
    if ts.any (fun t => ¬ (t ∈ selfTargetNames)) then
      SummaryPlotOutcome.rejected "One of the target names doesn't exist in the original background ts."
    else summaryPlotHorizonCheck n horizons

/-! ## ShapExplainer.explain foreground fallback (shap_explainer.py lines 171-189) -/

/-- The foreground-resolution step of ShapExplainer.explain (shap_explainer.py
lines 171-174): when foreground_series is None, all three foreground inputs
are replaced by the stored background inputs. -/
def explainResolveForeground {α γ : Type}
    (background_series : α)
    (background_past_covariates background_future_covariates : Option γ)
    (foreground_series : Option α)
    (foreground_past_covariates foreground_future_covariates : Option γ) :
    α × Option γ × Option γ :=
  match foreground_series with
  | none => (background_series, background_past_covariates, background_future_covariates)
  | some fg => (fg, foreground_past_covariates, foreground_future_covariates)

/-- ShapExplainer.explain as far as the claims need it: resolve the
foreground inputs, then hand them to the explainers' shap_explanations call
(lines 185-189), abstracted here as an arbitrary function shapExpl of the
resolved triple. -/
def explainRun {α γ δ : Type} (shapExpl : α → Option γ → Option γ → δ)
    (background_series : α)
    (background_past_covariates background_future_covariates : Option γ)
    (foreground_series : Option α)
    (foreground_past_covariates foreground_future_covariates : Option γ) : δ :=
  let r := explainResolveForeground background_series background_past_covariates
    background_future_covariates foreground_series foreground_past_covariates
    foreground_future_covariates
  shapExpl r.1 r.2.1 r.2.2

/-! ## Lag-matrix builder
(_RegressionShapExplainers._create_regression_model_shap_X,
shap_explainer.py lines 432-517)

A pandas DataFrame with no missing values is a list of named columns of ℚ;
after shifting, entries may be missing (NaN), hence Option ℚ. -/

/-- Dataframe without missing values: named columns, all of one length. -/
abbrev Frame := List (String × List ℚ)

/-- Dataframe after shifting: entries may be NaN. -/
abbrev OFrame := List (String × List (Option ℚ))

/-- Model of pandas Series.shift(p) on one column: the entry at row t is the
original entry at row t - p, or NaN when that row does not exist.  The
result has the same length (row index) as the input. -/
def shiftCol (p : ℤ) (v : List ℚ) : List (Option ℚ) :=
  (List.range v.length).map fun (t : ℕ) =>
    if 0 ≤ (t : ℤ) - p then v.get? ((t : ℤ) - p).toNat else none

/-- One block appended to df_X (shap_explainer.py lines 480-489 and 492-507):
df.shift(-lag) with every column c renamed to c ++ suffix ++ str(lag). -/
def lagBlock (df : Frame) (suffix : String) (lag : ℤ) : OFrame :=
  df.map fun cv => (cv.1 ++ suffix ++ toString lag, shiftCol (-lag) cv.2)

/-- All blocks for one feature class: one lagBlock per configured lag, in
lag order (the Python for-loops over self.model.lags[...]). -/
def classBlocks (df : Frame) (suffix : String) (lags : List ℤ) : OFrame :=
  lags.flatMap fun lag => lagBlock df suffix lag

/-- The column blocks of _create_regression_model_shap_X for one series
(shap_explainer.py lines 475-510): target-lag blocks first (when "target" is
a key of self.model.lags), then past-covariate blocks, then future-covariate
blocks (the covariates list at lines 460-473, iterated at lines 492-507;
a block is emitted only when the lag list is present and non-empty, matching
Python's `if lags:`), all concatenated along the column axis.  An absent
lag key or absent covariate dataframe is `none`. -/
def createShapXCols (dfTarget : Frame) (dfPast dfFut : Option Frame)
    (lagsTarget lagsPast lagsFut : Option (List ℤ)) : OFrame :=
  (match lagsTarget with
   | some ls => classBlocks dfTarget "_target_lag" ls
   | none => [])
  ++ (match dfPast, lagsPast with
      | some df, some ls => classBlocks df "_past_cov_lag" ls
      | _, _ => [])
  ++ (match dfFut, lagsFut with
      | some df, some ls => classBlocks df "_fut_cov_lag" ls
      | _, _ => [])

/-- Entry of a shifted column at row t (out-of-range rows count as missing). -/
def colEntry (col : List (Option ℚ)) (t : ℕ) : Option ℚ := (col.get? t).join

/-- Row t survives pandas dropna() exactly when every column is defined
there (shap_explainer.py line 510). -/
def rowKept (cols : OFrame) (t : ℕ) : Bool :=
  cols.all fun cv => (colEntry cv.2 t).isSome

/-- Row indices remaining after dropna(), for a frame whose row index has
nRows rows. -/
def keptRows (cols : OFrame) (nRows : ℕ) : List ℕ :=
  (List.range nRows).filter (rowKept cols)

/-! ## Attribution reassembly
(_RegressionShapExplainers.__init__ lines 304-337 and
_RegressionShapExplainers.shap_explanations lines 339-389)

A shap Explanation for a single-output regressor has 2-d values
(sample, feature) and 1-d base values (sample); for a multi-output regressor
it has 3-d values (sample, feature, output) and 2-d base values
(sample, output).  Sample/feature/output axes are modelled as functions of
the index. -/

/-- Raw shap Explanation of a multi-output (combined) regressor. -/
structure Expl3 : Type where
  values : ℕ → ℕ → ℕ → ℚ
  base_values : ℕ → ℕ → ℚ
  feature_names : List String

/-- Raw shap Explanation of one single-output regressor (also the shape
produced by each per-(horizon, component) estimator's explainer). -/
structure Expl2Raw : Type where
  values : ℕ → ℕ → ℚ
  base_values : ℕ → ℚ
  feature_names : List String

/-- Wrapped attribution object stored in the reassembled mapping: values,
per-sample base value, feature names and the originating time index. -/
structure Expl2 : Type where
  values : ℕ → ℕ → ℚ
  base_values : ℕ → ℚ
  feature_names : List String
  time_index : List ℤ

/-- The single_output flag of _RegressionShapExplainers.__init__
(shap_explainer.py lines 311-313). -/
def single_output (n target_dim : ℕ) : Bool := n == 1 && target_dim == 1

/-- Wrapping applied to an already per-output attribution object: ravel the
(one-sample-per-row) base values — the identity on our 1-d model — and
attach the time index (shap_explainer.py lines 361-363 and 380-385). -/
def attachMeta (e : Expl2Raw) (tIdx : List ℤ) : Expl2 :=
  { values := e.values
    base_values := e.base_values
    feature_names := e.feature_names
    time_index := tIdx }

/-- The slice taken from a combined Explanation for horizon i and component
j (shap_explainer.py lines 374-379, 384-385): last-axis index
target_dim * i + j of both the values and the base values, keeping the
combined object's feature names and attaching the time index. -/
def sliceSlot (target_dim : ℕ) (raw : Expl3) (tIdx : List ℤ) (i j : ℕ) : Expl2 :=
  { values := fun s f => raw.values s f (target_dim * i + j)
    base_values := fun s => raw.base_values s (target_dim * i + j)
    feature_names := raw.feature_names
    time_index := tIdx }

/-- shap_explanations, combined-output branch with single_output = False
(shap_explainer.py lines 366-379, 384-387): the nested dict
{i : {j : slice at target_dim * i + j}} for i < n, j < target_dim. -/
def shapExplanationsCombined (n target_dim : ℕ) (raw : Expl3) (tIdx : List ℤ) :
    List (ℕ × List (ℕ × Expl2)) :=
  (List.range n).map fun i =>
    (i, (List.range target_dim).map fun j => (j, sliceSlot target_dim raw tIdx i j))

/-- shap_explanations, combined-output branch with single_output = True
(shap_explainer.py lines 366-372, 380-387): every slot of the nested dict
reuses the one raw Explanation object; only its base values are ravelled
and feature names and time index attached. -/
def shapExplanationsSingleOut (n target_dim : ℕ) (raw : Expl2Raw) (tIdx : List ℤ) :
    List (ℕ × List (ℕ × Expl2)) :=
  (List.range n).map fun i =>
    (i, (List.range target_dim).map fun j => (j, attachMeta raw tIdx))

/-- shap_explanations, MultiOutputRegressor branch, composed with the
explainer construction of __init__: explainers[i][j] is built from
self.model.model.estimators_[i + j] (shap_explainer.py line 329), and
shap_explanations wraps explainers[i][j](foreground_X) (lines 356-365).
estimatorExpl k abstracts the attribution Explanation produced by the k-th
independent estimator on the foreground matrix. -/
def shapExplanationsMultiOutput (n target_dim : ℕ)
    (estimatorExpl : ℕ → Expl2Raw) (tIdx : List ℤ) :
    List (ℕ × List (ℕ × Expl2)) :=
  (List.range n).map fun i =>
    (i, (List.range target_dim).map fun j =>
      (j, attachMeta (estimatorExpl (i + j)) tIdx))

/-- Dict lookup on an association list with ℕ keys. -/
def dictGet {α : Type} (m : List (ℕ × α)) (k : ℕ) : Option α :=
  (m.find? fun p => p.1 == k).map Prod.snd

/-- Lookup in the nested mapping horizon → component → attribution. -/
def dictGet2 {α : Type} (m : List (ℕ × List (ℕ × α))) (i j : ℕ) : Option α :=
  match dictGet m i with
  | some inner => dictGet inner j
  | none => none

/-- Combined Explanation whose every cell records its last-axis index, used
to exhibit concrete slices. -/
def markerExpl3 : Expl3 :=
  { values := fun _ _ o => (o : ℚ)
    base_values := fun _ o => (o : ℚ)
    feature_names := ["f0", "f1", "f2"] }

/-- Family of per-estimator Explanations whose every cell records the
estimator index, used to exhibit which estimator a slot came from. -/
def markerEstimators : ℕ → Expl2Raw := fun k =>
  { values := fun _ _ => (k : ℚ)
    base_values := fun _ => (k : ℚ)
    feature_names := [] }

/-- Concrete deterministic series used as a witness input. -/
def tsDetA : TimeSeries :=
  { times := [0, 1], components := ["c0"], nSamples := 1,
    values := fun t _ _ => (t : ℚ) + 1 }

/-- Concrete deterministic series used as a witness input. -/
def tsDetB : TimeSeries :=
  { times := [0, 1], components := ["c0"], nSamples := 1,
    values := fun _ _ _ => 1 }

/-- Concrete stochastic (three-sample) series used as a witness input. -/
def tsStoch : TimeSeries :=
  { times := [0, 1], components := ["c0"], nSamples := 3,
    values := fun _ _ _ => 0 }

/-! ## Helper lemmas -/

theorem find?_range'_map {α : Type} (f : ℕ → α) :
    ∀ (cnt s k : ℕ), s ≤ k → k < s + cnt →
      (((List.range' s cnt).map fun i => (i, f i)).find? fun p => p.1 == k)
        = some (k, f k)
  | 0, s, k, hs, hk => absurd hk (by omega)
  | cnt + 1, s, k, hs, hk => by
    rw [List.range'_succ s cnt 1, List.map_cons]
    by_cases h : s = k
    · subst h
      simp [List.find?]
    · have hfalse : (s == k) = false := by simpa using h
      simp only [List.find?, hfalse]
      exact find?_range'_map f cnt (s + 1) k (by omega) (by omega)

theorem dictGet_range_map {α : Type} (f : ℕ → α) (n k : ℕ) (hk : k < n) :
    dictGet ((List.range n).map fun i => (i, f i)) k = some (f k) := by
  unfold dictGet
  rw [List.range_eq_range', find?_range'_map f n 0 k (Nat.zero_le k) (by omega)]
  rfl

theorem dictGet2_range_map {α : Type} (f : ℕ → ℕ → α) (n m i j : ℕ)
    (hi : i < n) (hj : j < m) :
    dictGet2
      ((List.range n).map fun a => (a, (List.range m).map fun b => (b, f a b)))
      i j = some (f i j) := by
  unfold dictGet2
  rw [dictGet_range_map (fun a => (List.range m).map fun b => (b, f a b)) n i hi]
  exact dictGet_range_map (f i) m j hj

theorem length_filter_range_le (L N : ℕ) :
    ((List.range N).filter fun t => decide (L ≤ t)).length = N - L := by
  induction N with
  | zero => simp
  | succ n ih =>
    rw [List.range_succ, List.filter_append, List.length_append, ih]
    by_cases h : L ≤ n
    · simp only [List.filter_cons, List.filter_nil, decide_eq_true h, if_true]
      simp only [List.length_cons, List.length_nil]
      omega
    · simp only [List.filter_cons, List.filter_nil, decide_eq_false h]
      simp only [Bool.false_eq_true, if_false, List.length_nil]
      omega

theorem foldl_max_seed_le : ∀ (xs : List ℕ) (a : ℕ), a ≤ xs.foldl max a
  | [], _ => le_refl _
  | x :: xs, a =>
    le_trans (le_max_left a x) (foldl_max_seed_le xs (max a x))

theorem foldl_max_mem_le : ∀ (xs : List ℕ) (a x : ℕ), x ∈ xs → x ≤ xs.foldl max a
  | y :: ys, a, x, hmem => by
    rcases List.mem_cons.mp hmem with h | h
    · subst h
      exact le_trans (le_max_right a x) (foldl_max_seed_le ys (max a x))
    · exact foldl_max_mem_le ys (max a y) x h

theorem pyMax_mem_le {l : List ℕ} {h : ℕ} (hmem : h ∈ l) :
    ∃ m, pyMax l = some m ∧ h ≤ m := by
  cases l with
  | nil => cases hmem
  | cons x xs =>
    refine ⟨xs.foldl max x, rfl, ?_⟩
    rcases List.mem_cons.mp hmem with h1 | h1
    · subst h1; exact foldl_max_seed_le xs h
    · exact foldl_max_mem_le xs x h h1

theorem colEntry_shiftCol (p : ℤ) (v : List ℚ) (t : ℕ) (ht : t < v.length) :
    colEntry (shiftCol p v) t
      = if 0 ≤ (t : ℤ) - p then v.get? ((t : ℤ) - p).toNat else none := by
  unfold colEntry shiftCol
  rw [List.get?_map, List.get?_range ht]
  rfl

theorem isSome_get? {α : Type} (l : List α) (n : ℕ) (h : n < l.length) :
    (l.get? n).isSome = true := by
  rw [List.get?_eq_get h]
  rfl

theorem shiftEntry_isSome (lag : ℤ) (v : List ℚ) (N t : ℕ)
    (hlen : v.length = N) (ht : t < N) (hneg : lag < 0) :
    (colEntry (shiftCol (-lag) v) t).isSome = decide (0 ≤ (t : ℤ) + lag) := by
  rw [colEntry_shiftCol (-lag) v t (by omega)]
  have he : (t : ℤ) - -lag = (t : ℤ) + lag := by ring
  rw [he]
  by_cases h : 0 ≤ (t : ℤ) + lag
  · rw [if_pos h, decide_eq_true h]
    apply isSome_get?
    omega
  · rw [if_neg h, decide_eq_false h]
    rfl

theorem rowKept_classBlocks (df : Frame) (N : ℕ) (lags : List ℤ) (L : ℕ)
    (hdf : df ≠ []) (hlen : ∀ cv ∈ df, cv.2.length = N)
    (hmem : -(L : ℤ) ∈ lags) (hbound : ∀ l ∈ lags, -(L : ℤ) ≤ l)
    (hneg : ∀ l ∈ lags, l < 0) (t : ℕ) (ht : t < N) :
    rowKept (classBlocks df "_target_lag" lags) t = decide (L ≤ t) := by
  by_cases hLt : L ≤ t
  · rw [decide_eq_true hLt]
    rw [rowKept, List.all_eq_true]
    intro cv hcv
    rw [classBlocks, List.mem_flatMap] at hcv
    obtain ⟨lag, hlag, hcv⟩ := hcv
    rw [lagBlock, List.mem_map] at hcv
    obtain ⟨cc, hcc, rfl⟩ := hcv
    rw [shiftEntry_isSome lag cc.2 N t (hlen cc hcc) ht (hneg lag hlag)]
    have hb := hbound lag hlag
    have : (L : ℤ) ≤ (t : ℤ) := by exact_mod_cast hLt
    simp
    omega
  · rw [decide_eq_false hLt]
    obtain ⟨cv₀, hcv₀⟩ := List.exists_mem_of_ne_nil df hdf
    rw [rowKept, List.all_eq_false]
    refine ⟨(cv₀.1 ++ "_target_lag" ++ toString (-(L : ℤ)), shiftCol (-(-(L : ℤ))) cv₀.2), ?_, ?_⟩
    · rw [classBlocks, List.mem_flatMap]
      exact ⟨-(L : ℤ), hmem, by rw [lagBlock, List.mem_map]; exact ⟨cv₀, hcv₀, rfl⟩⟩
    · rw [shiftEntry_isSome (-(L : ℤ)) cv₀.2 N t (hlen cv₀ hcv₀) ht (by omega)]
      simp
      omega

theorem keptRows_classBlocks_length (df : Frame) (N : ℕ) (lags : List ℤ) (L : ℕ)
    (hdf : df ≠ []) (hlen : ∀ cv ∈ df, cv.2.length = N)
    (hmem : -(L : ℤ) ∈ lags) (hbound : ∀ l ∈ lags, -(L : ℤ) ≤ l)
    (hneg : ∀ l ∈ lags, l < 0) :
    (keptRows (classBlocks df "_target_lag" lags) N).length = N - L := by
  unfold keptRows
  rw [List.filter_congr (fun t htm =>
    rowKept_classBlocks df N lags L hdf hlen hmem hbound hneg t
      (List.mem_range.mp htm))]
  exact length_filter_range_le L N

theorem classBlocks_length (df : Frame) (suffix : String) (lags : List ℤ) :
    (classBlocks df suffix lags).length = lags.length * df.length := by
  induction lags with
  | nil => simp [classBlocks]
  | cons l ls ih =>
    rw [classBlocks, List.flatMap_cons]
    rw [List.length_append]
    rw [classBlocks] at ih
    rw [ih, lagBlock, List.length_map, List.length_cons]
    ring

theorem classBlocks_names (df : Frame) (suffix : String) (lags : List ℤ) :
    (classBlocks df suffix lags).map Prod.fst
      = lags.flatMap fun lag => df.map fun cv => cv.1 ++ suffix ++ toString lag := by
  induction lags with
  | nil => rfl
  | cons l ls ih =>
    rw [classBlocks, List.flatMap_cons, List.map_append, List.flatMap_cons]
    rw [classBlocks] at ih
    rw [ih, lagBlock, List.map_map]
    rfl

/-! ## Claim theorems -/

/-- C1: in the combined-output layout with horizons > 1 or target_dim > 1
(so single_output is false), the attribution stored at horizon i, component
j of the reassembled mapping is the slice of the raw attribution tensor's
last axis at index target_dim * i + j, for the values and the base values
alike, with the raw feature names kept and the time index attached. -/
theorem C1_combined_slice_index (n target_dim : ℕ) (raw : Expl3) (tIdx : List ℤ)
    (i j : ℕ) (hscope : 1 < n ∨ 1 < target_dim) (hi : i < n) (hj : j < target_dim) :
    single_output n target_dim = false
    ∧ dictGet2 (shapExplanationsCombined n target_dim raw tIdx) i j
        = some { values := fun s f => raw.values s f (target_dim * i + j)
                 base_values := fun s => raw.base_values s (target_dim * i + j)
                 feature_names := raw.feature_names
                 time_index := tIdx } := by
  constructor
  · unfold single_output
    rcases hscope with h | h
    · have hne : n ≠ 1 := by omega
      simp [hne]
    · have hne : target_dim ≠ 1 := by omega
      simp [hne]
  · rw [shapExplanationsCombined]
    exact dictGet2_range_map (fun a b => sliceSlot target_dim raw tIdx a b)
      n target_dim i j hi hj

/-- Witness for C1: with horizons = 2 and target_dim = 3, the entry at
[1][2] of the reassembled mapping is the slice at last-axis index
3 * 1 + 2 = 5. -/
theorem C1_combined_slice_index_witness :
    single_output 2 3 = false
    ∧ dictGet2 (shapExplanationsCombined 2 3 markerExpl3 []) 1 2
        = some { values := fun s f => markerExpl3.values s f 5
                 base_values := fun s => markerExpl3.base_values s 5
                 feature_names := markerExpl3.feature_names
                 time_index := [] } :=
  C1_combined_slice_index 2 3 markerExpl3 [] 1 2 (Or.inl (by decide))
    (by decide) (by decide)

/-- C2, evaluated at the failing input: the per-output-estimator layout
builds the explainer for slot (i, j) from estimators_[i + j]
(shap_explainer.py line 329).  With horizons = 2 and target_dim = 1 the
reassembled mapping does have exactly the keys {0: {0}, 1: {0}} and the
pass-through is correct, but with horizons = 2 and target_dim = 2 the slot
at [1][0] carries the attribution of estimator 1 + 0 = 1 — the estimator
belonging to pair (0, 1) — and not that of the (1, 0) estimator, which sits
at index target_dim * 1 + 0 = 2 in the horizon-major estimator list. -/
theorem C2_multioutput_estimator_slip :
    ((shapExplanationsMultiOutput 2 1 markerEstimators []).map Prod.fst = [0, 1]
      ∧ ∀ p ∈ shapExplanationsMultiOutput 2 1 markerEstimators [],
          p.2.map Prod.fst = [0])
    ∧ (dictGet2 (shapExplanationsMultiOutput 2 2 markerEstimators []) 1 0).map
        (fun e => e.base_values 0)
        = some ((markerEstimators (1 + 0)).base_values 0)
    ∧ (dictGet2 (shapExplanationsMultiOutput 2 2 markerEstimators []) 1 0).map
        (fun e => e.base_values 0)
        ≠ some ((markerEstimators (2 * 1 + 0)).base_values 0) := by
  refine ⟨⟨rfl, by decide⟩, rfl, ?_⟩
  · intro hcontra
    have h1 : (dictGet2 (shapExplanationsMultiOutput 2 2 markerEstimators []) 1 0).map
        (fun e => e.base_values 0) = some ((1 : ℕ) : ℚ) := rfl
    rw [h1] at hcontra
    have h2 : ((markerEstimators (2 * 1 + 0)).base_values 0) = ((2 : ℕ) : ℚ) := rfl
    rw [h2] at hcontra
    have h3 : ((1 : ℕ) : ℚ) = ((2 : ℕ) : ℚ) := Option.some.inj hcontra
    norm_num at h3

/-- C3: for a single target series with only target lags configured, the
feature matrix built by _create_regression_model_shap_X has exactly N - L
rows after dropna (N the series length, L the maximum lag magnitude),
exactly one column per (lag, component) pair, and the columns are named
component ++ "_target_lag" ++ lag. -/
theorem C3_lag_matrix_shape (df : Frame) (N : ℕ) (lags : List ℤ) (L : ℕ)
    (hdf : df ≠ []) (hlen : ∀ cv ∈ df, cv.2.length = N)
    (hmem : -(L : ℤ) ∈ lags) (hbound : ∀ l ∈ lags, -(L : ℤ) ≤ l)
    (hneg : ∀ l ∈ lags, l < 0) (_hLN : L ≤ N) :
    (keptRows (createShapXCols df none none (some lags) none none) N).length = N - L
    ∧ (createShapXCols df none none (some lags) none none).length
        = lags.length * df.length
    ∧ (createShapXCols df none none (some lags) none none).map Prod.fst
        = lags.flatMap fun lag =>
            df.map fun cv => cv.1 ++ "_target_lag" ++ toString lag := by
  have hc : createShapXCols df none none (some lags) none none
      = classBlocks df "_target_lag" lags := by
    unfold createShapXCols
    simp
  rw [hc]
  exact ⟨keptRows_classBlocks_length df N lags L hdf hlen hmem hbound hneg,
         classBlocks_length df _ lags, classBlocks_names df _ lags⟩

/-- Witness for C3: target lags [-2, -1] on a univariate series of length 5
give a matrix of 5 - 2 = 3 rows and exactly the two columns
"x_target_lag-2" and "x_target_lag-1". -/
theorem C3_lag_matrix_shape_witness :
    (keptRows (createShapXCols [("x", [1, 2, 3, 4, 5])] none none
        (some [-2, -1]) none none) 5).length = 3
    ∧ (createShapXCols [("x", [1, 2, 3, 4, 5])] none none
        (some [-2, -1]) none none).length = 2
    ∧ (createShapXCols [("x", [1, 2, 3, 4, 5])] none none
        (some [-2, -1]) none none).map Prod.fst
        = ["x_target_lag-2", "x_target_lag-1"] :=
  C3_lag_matrix_shape [("x", [1, 2, 3, 4, 5])] 5 [-2, -1] 2 (by decide)
    (by decide) (by decide) (by decide) (by decide) (by decide)

/-- C4: in the built feature matrix the columns appear in the order all
target-lag columns (outer loop over lags, inner over components), then all
past-covariate-lag columns, then all future-covariate-lag columns. -/
theorem C4_column_order (dfT dfP dfF : Frame) (lagsT lagsP lagsF : List ℤ) :
    (createShapXCols dfT (some dfP) (some dfF) (some lagsT) (some lagsP)
        (some lagsF)).map Prod.fst
      = (lagsT.flatMap fun lag =>
          dfT.map fun cv => cv.1 ++ "_target_lag" ++ toString lag)
        ++ (lagsP.flatMap fun lag =>
          dfP.map fun cv => cv.1 ++ "_past_cov_lag" ++ toString lag)
        ++ (lagsF.flatMap fun lag =>
          dfF.map fun cv => cv.1 ++ "_fut_cov_lag" ++ toString lag) := by
  unfold createShapXCols
  rw [List.map_append, List.map_append, classBlocks_names, classBlocks_names,
    classBlocks_names]

/-- C5: in the combined-output layout with horizons = 1 and target_dim = 1
the single raw attribution object is reused unchanged as the (0, 0) entry:
its values and (ravelled) base values are exactly the raw object's fields,
not a slice or a copy, with feature names kept and the time index attached. -/
theorem C5_single_output_reuse (n target_dim : ℕ) (raw : Expl2Raw)
    (tIdx : List ℤ) (hn : n = 1) (ht : target_dim = 1) :
    single_output n target_dim = true
    ∧ dictGet2 (shapExplanationsSingleOut n target_dim raw tIdx) 0 0
        = some { values := raw.values
                 base_values := raw.base_values
                 feature_names := raw.feature_names
                 time_index := tIdx } := by
  subst hn
  subst ht
  refine ⟨rfl, ?_⟩
  rw [shapExplanationsSingleOut]
  exact dictGet2_range_map (fun _ _ => attachMeta raw tIdx) 1 1 0 0
    (by decide) (by decide)

/-- Witness for C5 at horizons = 1, target_dim = 1 with a concrete raw
Explanation. -/
theorem C5_single_output_reuse_witness :
    single_output 1 1 = true
    ∧ dictGet2 (shapExplanationsSingleOut 1 1 (markerEstimators 7) []) 0 0
        = some { values := (markerEstimators 7).values
                 base_values := (markerEstimators 7).base_values
                 feature_names := (markerEstimators 7).feature_names
                 time_index := [] } :=
  C5_single_output_reuse 1 1 (markerEstimators 7) [] rfl rfl

/-- C6: for deterministic series A and B sharing a time index and component
structure, the difference scorer returns A - B pointwise, and the result
keeps A's time index and component names. -/
theorem C6_difference_scorer (A B : TimeSeries)
    (hA : isDeterministic A = true) (hB : isDeterministic B = true)
    (_hT : B.times = A.times) (_hC : B.components = A.components) :
    scoreCoreFromPrediction A B = Except.ok (tsSub A B)
    ∧ (tsSub A B).times = A.times
    ∧ (tsSub A B).components = A.components
    ∧ ∀ t c s, (tsSub A B).values t c s = A.values t c s - B.values t c s := by
  refine ⟨?_, rfl, rfl, fun t c s => rfl⟩
  unfold scoreCoreFromPrediction
  simp [hA, hB]

/-- Witness for C6 on two concrete deterministic series sharing index and
components. -/
theorem C6_difference_scorer_witness :
    scoreCoreFromPrediction tsDetA tsDetB = Except.ok (tsSub tsDetA tsDetB)
    ∧ (tsSub tsDetA tsDetB).times = tsDetA.times
    ∧ (tsSub tsDetA tsDetB).components = tsDetA.components
    ∧ ∀ t c s, (tsSub tsDetA tsDetB).values t c s
        = tsDetA.values t c s - tsDetB.values t c s :=
  C6_difference_scorer tsDetA tsDetB rfl rfl rfl rfl

/-- C7: when either input series of the difference scorer is
non-deterministic, the call fails with the precondition-violation error and
no result series is produced. -/
theorem C7_nondeterministic_rejected (A B : TimeSeries)
    (h : isDeterministic A = false ∨ isDeterministic B = false) :
    ∃ msg, scoreCoreFromPrediction A B = Except.error msg := by
  rcases h with h | h
  · exact ⟨"actual_series must be deterministic",
      by simp [scoreCoreFromPrediction, h]⟩
  · by_cases hA : isDeterministic A = true
    · exact ⟨"pred_series must be deterministic",
        by simp [scoreCoreFromPrediction, hA, h]⟩
    · exact ⟨"actual_series must be deterministic",
        by simp [scoreCoreFromPrediction, hA]⟩

/-- Witness for C7 on a concrete three-sample (stochastic) series. -/
theorem C7_nondeterministic_rejected_witness :
    ∃ msg, scoreCoreFromPrediction tsStoch tsDetB = Except.error msg :=
  C7_nondeterministic_rejected tsStoch tsDetB (Or.inl rfl)

/-- C8: configuration errors are rejected synchronously before any
attribution is computed: an attribution-method name outside the supported
set makes the constructor fail, and summary_plot with an absent target name,
or with a horizon index above output_chunk_length - 1, stops at the
validation step with a rejected-input error. -/
theorem C8_config_rejections (s : String)
    (hs : ¬ pyUpper s ∈ shapMethodMembers)
    (selfTargets : List String) (n : ℕ)
    (ts : List String) (tn : String) (htn : tn ∈ ts) (habs : ¬ tn ∈ selfTargets)
    (anyHorizons : Option (List ℕ))
    (hzs : List ℕ) (h : ℕ) (hh : h ∈ hzs) (hbig : n - 1 < h) :
    shapExplainerInitMethod (some s)
      = Except.error "Invalid shap method. Please choose one value among the following: [partition, tree, kernel, sampling, linear, deep, gradient]."
    ∧ summaryPlotCheck selfTargets n (some ts) anyHorizons
        = SummaryPlotOutcome.rejected "One of the target names doesn't exist in the original background ts."
    ∧ summaryPlotCheck selfTargets n none (some hzs)
        = SummaryPlotOutcome.rejected "One of the horizons is greater than the model output_chunk_length." := by
  refine ⟨?_, ?_, ?_⟩
  · simp [shapExplainerInitMethod, hs]
  · have hcond : (ts.any fun t => ¬ (t ∈ selfTargets)) = true :=
      List.any_eq_true.mpr ⟨tn, htn, decide_eq_true habs⟩
    simp only [summaryPlotCheck, hcond, if_true]
  · obtain ⟨m, hm, hle⟩ := pyMax_mem_le hh
    simp only [summaryPlotCheck, summaryPlotHorizonCheck, hm]
    rw [if_pos (show n - 1 < m by omega)]

/-- Witness for C8: method name "bogus", background target "T0", requested
target "T1", output_chunk_length 1 and requested horizon 1. -/
theorem C8_config_rejections_witness :
    shapExplainerInitMethod (some "bogus")
      = Except.error "Invalid shap method. Please choose one value among the following: [partition, tree, kernel, sampling, linear, deep, gradient]."
    ∧ summaryPlotCheck ["T0"] 1 (some ["T1"]) none
        = SummaryPlotOutcome.rejected "One of the target names doesn't exist in the original background ts."
    ∧ summaryPlotCheck ["T0"] 1 none (some [1])
        = SummaryPlotOutcome.rejected "One of the horizons is greater than the model output_chunk_length." :=
  C8_config_rejections "bogus" (by decide) ["T0"] 1 ["T1"] "T1" (by decide)
    (by decide) none [1] 1 (by decide) (by decide)

/-- C9: the Croston constructor accepts any version whose lower-cased form
is in the accepted list, but dispatches on the exact string, so an accepted
version that is not exactly "classic", "optimized" or "sba" falls into the
TSB branch: it fails unless both alpha_d and alpha_p are given, and with
both given it builds the TSB model. -/
theorem C9_croston_exact_dispatch (version : String) (d p : ℚ)
    (hacc : pyLower version ∈ crostonAcceptedVersions)
    (hnc : version ≠ "classic") (hno : version ≠ "optimized")
    (hns : version ≠ "sba") :
    crostonInit version none none
      = Except.error "alpha_d and alpha_p must be specified when using \"tsb\"."
    ∧ crostonInit version (some d) none
        = Except.error "alpha_d and alpha_p must be specified when using \"tsb\"."
    ∧ crostonInit version none (some p)
        = Except.error "alpha_d and alpha_p must be specified when using \"tsb\"."
    ∧ crostonInit version (some d) (some p)
        = Except.ok (CrostonModel.tsb d p) := by
  have hv : ¬ ¬ (pyLower version ∈ crostonAcceptedVersions) := not_not_intro hacc
  refine ⟨?_, ?_, ?_, ?_⟩ <;>
    · unfold crostonInit
      rw [if_neg hv, if_neg hnc, if_neg hno, if_neg hns]

/-- Witness for C9: version "Classic" lower-cases to the accepted "classic"
but is not exactly "classic", so it takes the TSB branch. -/
theorem C9_croston_exact_dispatch_witness :
    crostonInit "Classic" none none
      = Except.error "alpha_d and alpha_p must be specified when using \"tsb\"."
    ∧ crostonInit "Classic" (some 1) none
        = Except.error "alpha_d and alpha_p must be specified when using \"tsb\"."
    ∧ crostonInit "Classic" none (some 2)
        = Except.error "alpha_d and alpha_p must be specified when using \"tsb\"."
    ∧ crostonInit "Classic" (some 1) (some 2)
        = Except.ok (CrostonModel.tsb 1 2) :=
  C9_croston_exact_dispatch "Classic" 1 2 (by decide) (by decide) (by decide)
    (by decide)

/-- C10: explain called with foreground_series = None resolves the
foreground to the background series and the background past and future
covariates, so the attribution handed back is that of the background data. -/
theorem C10_explain_foreground_default {α γ δ : Type}
    (shapExpl : α → Option γ → Option γ → δ) (background_series : α)
    (background_past_covariates background_future_covariates : Option γ)
    (foreground_past_covariates foreground_future_covariates : Option γ) :
    explainRun shapExpl background_series background_past_covariates
        background_future_covariates none foreground_past_covariates
        foreground_future_covariates
      = shapExpl background_series background_past_covariates
          background_future_covariates
    ∧ explainResolveForeground background_series background_past_covariates
        background_future_covariates none foreground_past_covariates
        foreground_future_covariates
      = (background_series, background_past_covariates,
          background_future_covariates) :=
  ⟨rfl, rfl⟩

end Darts
